import Mathlib

/-!
Verification development for the NewsFeedBot repository (src/bot.py).

The live code (lines 1-167 of src/bot.py; the remainder of the file is
commented-out older variants) is a Telegram bot backed by a MongoDB
collection of subscriber documents. This file gives a shallow embedding of
the subscriber store, the command handlers, the three content fetchers, the
three send functions with their per-subscriber delivery loops, and the
daily scheduling loop, and proves properties about them.

Modelling conventions:
- a chat id is a natural number;
- the subscribers MongoDB collection is the list of stored documents in
  insertion order, one chat id per document;
- the outcome of an HTTP request is passed in explicitly: none means the
  request (or JSON decoding) raised, some payload is the parsed body;
- the messaging transport is a function ok : ChatId -> Bool saying whether
  bot.send_message to that chat succeeds; when it does not, send_message
  raises and — since the Python loops have no try/except — the exception
  escapes the enclosing send function;
- numeric JSON fields that the code only ever renders into strings
  (current_price, market_cap including its comma formatting) are modelled
  as their rendered string forms.
-/

namespace NewsFeedBot

/-- A Telegram chat id (update.message.chat_id). -/
abbrev ChatId := Nat

/-- The subscribers MongoDB collection, modelled as the list of stored
documents in insertion order; each document holds one chat id. -/
abbrev Store := List ChatId

/-- subscribers_collection.find_one on a chat_id filter: the first stored
document with that chat id, if any. -/
def find_one (s : Store) (c : ChatId) : Option ChatId :=
  s.find? (fun x => x == c)

/-- subscribers_collection.insert_one: appends a new document. -/
def insert_one (s : Store) (c : ChatId) : Store :=
  s ++ [c]

/-- subscribers_collection.delete_one on a chat_id filter: removes the
first matching document only. -/
def delete_one (s : Store) (c : ChatId) : Store :=
  s.eraseP (fun x => x == c)

/-- subscribers_collection.find with no filter: all stored documents, as
iterated by the delivery loops. -/
def find_all (s : Store) : List ChatId :=
  s

/-- The start command handler (src/bot.py lines 31-38): subscribe.
Returns the updated collection and the reply_text sent to the user. -/
def start (s : Store) (c : ChatId) : Store × String :=
  match find_one s c with
  | none => (insert_one s c, "Hi! You are now subscribed to Web3 updates.")
  | some _ => (s, "You are already subscribed to Web3 updates.")

/-- The stop command handler (src/bot.py lines 40-47): unsubscribe.
Returns the updated collection and the reply_text sent to the user. -/
def stop (s : Store) (c : ChatId) : Store × String :=
  match find_one s c with
  | some _ => (delete_one s c, "You have unsubscribed from Web3 updates.")
  | none => (s, "You are not subscribed to Web3 updates.")

/-- The replies the start handler sends to the user, as a function of
whether the subscriber store is reachable. In src/bot.py lines 31-38 the
find_one / insert_one calls are not wrapped in any try/except, so a
pymongo exception propagates out of the handler before any reply_text
call: on a store failure the handler emits no reply at all. -/
def start_replies (storeUp : Bool) (s : Store) (c : ChatId) : List String :=
  if storeUp then [(start s c).2] else []

/-- The replies the stop handler sends to the user, as a function of
whether the subscriber store is reachable; see start_replies. -/
def stop_replies (storeUp : Bool) (s : Store) (c : ChatId) : List String :=
  if storeUp then [(stop s c).2] else []

end NewsFeedBot

namespace NewsFeedBot

/-- A network or auth failure of an upstream content API: the requests call
raised. The spec names this condition ProviderUnavailable. -/
inductive FetchError
  | providerUnavailable
deriving DecidableEq

/-- One article object from the newsapi.org response. -/
structure Article where
  title : String
  description : String
  url : String
  urlToImage : String

/-- The markdown block src/bot.py lines 59-64 append for one article. -/
def article_block (a : Article) : String :=
  "*" ++ a.title ++ "*\n" ++ a.description ++ "\n[Read more](" ++ a.url ++
    ")\n![image](" ++ a.urlToImage ++ ")\n\n"

/-- fetch_web3_news (src/bot.py lines 49-65). The input is the outcome of
the newsapi.org request: none when requests.get or response.json raised
(a network/auth failure, the ProviderUnavailable condition), some articles
for a successful response, where articles is the value of the articles
field, defaulting to the empty list when the key is absent. The body takes
the top 3 articles and concatenates one block per article; an empty
article list yields the fallback string. -/
def fetch_web3_news : Option (List Article) → Except FetchError String
  | none => .error .providerUnavailable
  | some articles =>
      if articles.isEmpty then
        .ok "No Web3 news available at the moment."
      else
        .ok ((articles.take 3).foldl (fun acc a => acc ++ article_block a) "")

/-- One tweet object from the Twitter response. -/
structure Tweet where
  text : String
  id : String

/-- The markdown block src/bot.py line 87 appends for one tweet. -/
def tweet_block (t : Tweet) : String :=
  "[" ++ t.text.take 50 ++ "...](https://twitter.com/i/web/status/" ++
    t.id ++ ")\n\n"

/-- The fixed influencer id list of src/bot.py lines 68-79. -/
def influencer_ids : List String :=
  ["295218901", "25560012", "217801264", "1469101279", "304855551",
   "13765392", "121664618", "382540493", "828647717307011072", "6128602"]

/-- fetch_twitter_insights (src/bot.py lines 67-88). resp uid is the parsed
JSON of the per-user request: none when the data key is absent, some ts
when present with value ts; the code appends a block for the first tweet
only when the data key is present and non-empty. An empty accumulated
string yields the fallback. This model covers successful responses only
(a raising request is not needed by any claim about this function). -/
def fetch_twitter_insights (resp : String → Option (List Tweet)) : String :=
  let insights := influencer_ids.foldl (fun acc uid =>
    match resp uid with
    | some (t :: _) => acc ++ tweet_block t
    | _ => acc) ""
  if insights.isEmpty then "No insights available at the moment." else insights

/-- One market entry from the CoinGecko response; current_price and
market_cap are modelled as the strings the code renders them to. -/
structure Project where
  name : String
  symbol : String
  id : String
  current_price : String
  market_cap : String

/-- The markdown block src/bot.py lines 104-107 append for one project. -/
def project_block (p : Project) : String :=
  "[" ++ p.name ++ " (" ++ p.symbol.toUpper ++
    ")](https://www.coingecko.com/en/coins/" ++ p.id ++ "): $" ++
    p.current_price ++ " - Market Cap: $" ++ p.market_cap ++ "\n\n"

/-- fetch_crypto_projects (src/bot.py lines 90-108). The input is the
outcome of the CoinGecko request: none when requests.get or response.json
raised (ProviderUnavailable), some projects for a successful response. An
empty project list yields the fallback string. -/
def fetch_crypto_projects : Option (List Project) → Except FetchError String
  | none => .error .providerUnavailable
  | some projects =>
      if projects.isEmpty then
        .ok "No projects available at the moment."
      else
        .ok (projects.foldl (fun acc p => acc ++ project_block p) "")

/-- The observable outcome of one run of a send function: the messages for
which bot.send_message was called (chat id and full text), the chat ids
delivered successfully, and whether the loop over subscribers ran to
completion (false when a send_message exception escaped). -/
structure SendRun where
  messages : List (ChatId × String)
  delivered : List ChatId
  completed : Bool
deriving DecidableEq

/-- The per-subscriber loop shared by send_news, send_insights and
send_project_spotlight (src/bot.py lines 112-114, 119-121, 126-128): for
each document of find, await bot.send_message with the fixed text. ok c
says whether the transport delivers to c; when it does not, send_message
raises and — with no try/except in the loop — the exception escapes,
abandoning the remaining subscribers. -/
def delivery_loop (ok : ChatId → Bool) (text : String) :
    List ChatId → SendRun
  | [] => { messages := [], delivered := [], completed := true }
  | c :: rest =>
      if ok c then
        let r := delivery_loop ok text rest
        { messages := (c, text) :: r.messages,
          delivered := c :: r.delivered,
          completed := r.completed }
      else
        { messages := [(c, text)], delivered := [], completed := false }

/-- send_news (src/bot.py lines 110-115): fetch the news summary once, then
loop over all subscribers sending the prefixed text. A fetch exception
propagates out before any send (error case); a send_message exception
aborts the loop (completed = false in the returned run). -/
def send_news (resp : Option (List Article)) (ok : ChatId → Bool)
    (s : Store) : Except FetchError SendRun :=
  match fetch_web3_news resp with
  | .error e => .error e
  | .ok news =>
      .ok (delivery_loop ok ("Daily Web3 News Roundup:\n" ++ news) (find_all s))

/-- send_insights (src/bot.py lines 117-122): fetch the insights once, then
loop over all subscribers sending the prefixed text. -/
def send_insights (resp : String → Option (List Tweet)) (ok : ChatId → Bool)
    (s : Store) : SendRun :=
  delivery_loop ok ("Expert Insights:\n" ++ fetch_twitter_insights resp) (find_all s)

/-- send_project_spotlight (src/bot.py lines 124-129): fetch the projects
summary once, then loop over all subscribers sending the prefixed text.
A fetch exception propagates out before any send. -/
def send_project_spotlight (resp : Option (List Project)) (ok : ChatId → Bool)
    (s : Store) : Except FetchError SendRun :=
  match fetch_crypto_projects resp with
  | .error e => .error e
  | .ok projects =>
      .ok (delivery_loop ok ("Top 3 Crypto Projects:\n" ++ projects) (find_all s))

/-- The news test command handler (src/bot.py lines 132-134): the manual
news command awaits send_news, so the coroutine body runs to completion
and its sends happen. -/
def test_send_news (resp : Option (List Article)) (ok : ChatId → Bool)
    (s : Store) : Except FetchError SendRun :=
  send_news resp ok s

/-- The deliveries performed by the body of the scheduled 08:00 news job
(src/bot.py line 158). The job is the lambda that calls send_news, an
async function, without awaiting it: in Python this builds a coroutine
object and discards it, so the body of send_news never executes and no
bot.send_message call is made. The job therefore performs no deliveries,
whatever the subscriber list and provider output. -/
def scheduled_news_job_deliveries : List (ChatId × String) :=
  []

/-- Modelled from the spec: the daily job state kept by the external
schedule library (a dependency, not part of src/), for an entry built by
schedule.every().day.at as in src/bot.py lines 158-160. The spec (section
4.5) reframes it as a per-entry fired-today flag resetting at local
midnight; concretely the library keeps the next due instant. Times are in
minutes; a day is 1440 minutes; atMin is the minute-of-day of the at time
and nextRun the absolute minute of the next due run. -/
structure Job where
  atMin : Nat
  nextRun : Nat
deriving DecidableEq

/-- Modelled from the spec: schedule.run_pending for one job at the current
instant (the body of the polling loop, src/bot.py lines 162-164). When the
due instant has been reached the job body runs once and the next due
instant moves to the at time of the following day; otherwise nothing
happens. Returns the updated job and whether the job fired. -/
def run_pending (j : Job) (now : Nat) : Job × Bool :=
  if j.nextRun ≤ now then
    ({ atMin := j.atMin, nextRun := (now / 1440 + 1) * 1440 + j.atMin }, true)
  else
    (j, false)

/-- A sequence of polling ticks (the while True loop of src/bot.py lines
162-164, one entry per tick instant): final job state and the total number
of times the job fired. -/
def run_ticks (j : Job) : List Nat → Job × Nat
  | [] => (j, 0)
  | t :: ts =>
      let r := run_pending j t
      let rest := run_ticks r.1 ts
      (rest.1, (if r.2 then 1 else 0) + rest.2)

/-- Lemma: find_one returns none exactly when the chat id is not stored. -/
theorem find_one_eq_none_iff (s : Store) (c : ChatId) :
    find_one s c = none ↔ c ∉ s := by
  simp only [find_one, List.find?_eq_none, beq_iff_eq]
  constructor
  · intro h hc
    exact h c hc rfl
  · intro h x hx he
    exact h (he ▸ hx)

/-- Lemma: find_one returns some value exactly when the chat id is stored. -/
theorem find_one_isSome_iff (s : Store) (c : ChatId) :
    (find_one s c).isSome ↔ c ∈ s := by
  rcases h : find_one s c with _ | v
  · simp only [Option.isSome_none, Bool.false_eq_true, false_iff]
    exact (find_one_eq_none_iff s c).mp h
  · simp only [Option.isSome_some, true_iff]
    have := List.find?_some h
    have hm := List.mem_of_find?_eq_some h
    simp only [beq_iff_eq] at this
    exact this ▸ hm

/-- Lemma: erasing the first stored copy of a chat id removes it entirely
when the store held at most one copy. -/
theorem not_mem_delete_one_of_count_le_one (s : Store) (c : ChatId)
    (h : s.count c ≤ 1) : c ∉ delete_one s c := by
  induction s with
  | nil => simp [delete_one]
  | cons x xs ih =>
      by_cases hx : x = c
      · subst hx
        simp only [List.count_cons_self] at h
        have hz : xs.count x = 0 := by omega
        have hnm : x ∉ xs := by
          simpa using List.count_eq_zero.mp hz
        simpa [delete_one, List.eraseP_cons] using hnm
      · have hcount : xs.count c ≤ 1 := by
          simpa [List.count_cons, hx] using h
        have := ih hcount
        simp only [delete_one, List.eraseP_cons] at this ⊢
        have hbeq : (x == c) = false := by simp [hx]
        simp only [hbeq, cond_false, List.mem_cons]
        rintro (rfl | hmem)
        · exact hx rfl
        · exact this hmem

/-- Lemma: start on an absent chat id inserts it and replies that the user
is now subscribed. -/
theorem start_of_not_mem (s : Store) (c : ChatId) (h : c ∉ s) :
    start s c = (insert_one s c, "Hi! You are now subscribed to Web3 updates.") := by
  have hf : find_one s c = none := (find_one_eq_none_iff s c).mpr h
  simp [start, hf]

/-- Lemma: start on a present chat id changes nothing and replies that the
user is already subscribed. -/
theorem start_of_mem (s : Store) (c : ChatId) (h : c ∈ s) :
    start s c = (s, "You are already subscribed to Web3 updates.") := by
  rcases hf : find_one s c with _ | v
  · exact absurd h ((find_one_eq_none_iff s c).mp hf)
  · simp [start, hf]

/-- Lemma: stop on an absent chat id changes nothing and replies that the
user is not subscribed. -/
theorem stop_of_not_mem (s : Store) (c : ChatId) (h : c ∉ s) :
    stop s c = (s, "You are not subscribed to Web3 updates.") := by
  have hf : find_one s c = none := (find_one_eq_none_iff s c).mpr h
  simp [stop, hf]

/-- Lemma: stop on a present chat id deletes the first stored copy and
replies that the user has unsubscribed. -/
theorem stop_of_mem (s : Store) (c : ChatId) (h : c ∈ s) :
    stop s c = (delete_one s c, "You have unsubscribed from Web3 updates.") := by
  rcases hf : find_one s c with _ | v
  · exact absurd h ((find_one_eq_none_iff s c).mp hf)
  · simp [stop, hf]

/-- Lemma: inserting a chat id adds exactly one copy of it. -/
theorem count_insert_one (s : Store) (c : ChatId) :
    (insert_one s c).count c = s.count c + 1 := by
  simp [insert_one]

/-- C3: calling subscribe twice for the same chat id leaves the store with
exactly one document for it (no duplicate is ever created), the second
call replies already-subscribed, and the first call on an absent chat id
replies now-subscribed. The hypothesis is the Subscription Set invariant
that the starting store holds at most one document for the chat id. -/
theorem subscribe_twice_idempotent (s : Store) (c : ChatId)
    (hinv : s.count c ≤ 1) :
    ((start (start s c).1 c).1).count c = 1 ∧
    (start (start s c).1 c).2 = "You are already subscribed to Web3 updates." ∧
    (c ∉ s → (start s c).2 = "Hi! You are now subscribed to Web3 updates.") := by
  by_cases hc : c ∈ s
  · have h1 := start_of_mem s c hc
    rw [h1]
    have h2 := start_of_mem s c hc
    rw [h2]
    have hpos : 1 ≤ s.count c := List.one_le_count_iff.mpr hc
    have hone : s.count c = 1 := by omega
    exact ⟨hone, rfl, fun habs => absurd hc habs⟩
  · have h1 := start_of_not_mem s c hc
    rw [h1]
    have hmem : c ∈ insert_one s c := by simp [insert_one]
    have h2 := start_of_mem (insert_one s c) c hmem
    rw [h2]
    have hz : s.count c = 0 := List.count_eq_zero.mpr hc
    refine ⟨?_, rfl, fun _ => rfl⟩
    show (insert_one s c).count c = 1
    rw [count_insert_one, hz]

/-- C4: unsubscribe after subscribe removes the chat id: afterwards the
full listing of the store no longer contains it. The hypothesis is the
Subscription Set invariant that the starting store holds at most one
document for the chat id. -/
theorem unsubscribe_after_subscribe_removes (s : Store) (c : ChatId)
    (hinv : s.count c ≤ 1) :
    c ∉ find_all (stop (start s c).1 c).1 := by
  by_cases hc : c ∈ s
  · rw [start_of_mem s c hc, stop_of_mem s c hc]
    exact not_mem_delete_one_of_count_le_one s c hinv
  · rw [start_of_not_mem s c hc]
    have hmem : c ∈ insert_one s c := by simp [insert_one]
    rw [stop_of_mem (insert_one s c) c hmem]
    have hz : s.count c = 0 := List.count_eq_zero.mpr hc
    refine not_mem_delete_one_of_count_le_one (insert_one s c) c ?_
    rw [count_insert_one, hz]

/-- Witness for C4 at the empty store and chat id 42. -/
theorem unsubscribe_after_subscribe_removes_witness :
    42 ∉ find_all (stop (start ([] : Store) 42).1 42).1 :=
  unsubscribe_after_subscribe_removes [] 42 (by decide)

/-- Witness for C3 at the empty store and chat id 42. -/
theorem subscribe_twice_idempotent_witness :
    ((start (start ([] : Store) 42).1 42).1).count 42 = 1 ∧
    (start (start ([] : Store) 42).1 42).2 = "You are already subscribed to Web3 updates." ∧
    (42 ∉ ([] : Store) → (start ([] : Store) 42).2 = "Hi! You are now subscribed to Web3 updates.") :=
  subscribe_twice_idempotent [] 42 (by decide)

/-- C5: unsubscribe on a chat id that is not subscribed replies
not-subscribed and returns the store unchanged. -/
theorem unsubscribe_noop_on_absent (s : Store) (c : ChatId) (h : c ∉ s) :
    stop s c = (s, "You are not subscribed to Web3 updates.") :=
  stop_of_not_mem s c h

/-- Witness for C5 at the store holding 7 and absent chat id 42. -/
theorem unsubscribe_noop_on_absent_witness :
    stop ([7] : Store) 42 = ([7], "You are not subscribed to Web3 updates.") :=
  unsubscribe_noop_on_absent [7] 42 (by decide)

/-- C6 counterexample: when the subscriber store is unreachable, the
subscribe and unsubscribe handlers send the user no reply at all — in
particular no visible failure reply — at the concrete input of an empty
store and chat id 42. The pymongo exception simply propagates out of the
handler before any reply_text call. -/
theorem store_failure_no_reply_counterexample :
    start_replies false [] 42 = [] ∧ stop_replies false [] 42 = [] :=
  ⟨rfl, rfl⟩

/-- C6 amended: on a storage-layer failure, the command handlers send the
user no reply of any kind — the uncaught exception escapes the handler and
the request is dropped without a user-visible failure reply. -/
theorem store_failure_no_reply (s : Store) (c : ChatId) :
    start_replies false s c = [] ∧ stop_replies false s c = [] :=
  ⟨rfl, rfl⟩

/-- Lemma: full description of one delivery loop run. The attempted sends
are the leading subscribers whose delivery succeeds plus the first failing
one (if any); the successful sends are exactly that leading segment; the
loop completes exactly when every delivery succeeds. -/
theorem delivery_loop_spec (ok : ChatId → Bool) (text : String)
    (l : List ChatId) :
    (delivery_loop ok text l).messages.map (fun m => m.1) =
      l.takeWhile ok ++ (l.dropWhile ok).take 1 ∧
    (delivery_loop ok text l).delivered = l.takeWhile ok ∧
    ((delivery_loop ok text l).completed = true ↔ ∀ c ∈ l, ok c = true) := by
  induction l with
  | nil => simp [delivery_loop]
  | cons c rest ih =>
      by_cases hc : ok c = true
      · simp only [delivery_loop, hc, if_true, List.takeWhile_cons,
          List.dropWhile_cons, List.map_cons, List.mem_cons]
        refine ⟨?_, ?_, ?_⟩
        · simpa [hc] using congrArg (List.cons c) ih.1
        · simpa [hc] using congrArg (List.cons c) ih.2.1
        · simp only [ih.2.2]
          constructor
          · rintro h x (rfl | hx)
            · exact hc
            · exact h x hx
          · intro h x hx
            exact h x (Or.inr hx)
      · have hc2 : ok c = false := by simpa using hc
        refine ⟨?_, ?_, ?_⟩
        · simp [delivery_loop, hc2, List.takeWhile_cons, List.dropWhile_cons]
        · simp [delivery_loop, hc2, List.takeWhile_cons]
        · simp only [delivery_loop, hc2, Bool.false_eq_true, if_false,
            false_iff, not_forall]
          refine ⟨c, by simp, by simp [hc2]⟩

/-- C1 counterexample: with subscribers 1..5 and a transport that fails for
chat ids 2 and 4, send_news does not attempt all 5 deliveries and does not
succeed for 3 of them: the exception raised on the send to chat id 2
aborts the loop after only 2 attempts, 1 of them successful (and the
function produces no DeliveryReport of any kind). -/
theorem fanout_partial_failure_counterexample :
    (send_news (some []) (fun c => !(c == 2 || c == 4))
        [1, 2, 3, 4, 5]).toOption.map
      (fun r => (r.messages.length, r.delivered.length)) ≠ some (5, 3) := by
  decide

/-- C1 amended: delivery is attempted only up to and including the first
failing recipient — a delivery failure raises out of send_news and stops
delivery to the remaining recipients. In every send_news run that gets
past the fetch, the attempted recipients are the leading all-successful
segment plus the first failing recipient if there is one, the successful
recipients are exactly that leading segment, and the loop completes only
when every delivery succeeds. -/
theorem send_news_fanout_amended (resp : Option (List Article))
    (ok : ChatId → Bool) (s : Store) (run : SendRun)
    (h : send_news resp ok s = .ok run) :
    run.messages.map (fun m => m.1) =
      (find_all s).takeWhile ok ++ ((find_all s).dropWhile ok).take 1 ∧
    run.delivered = (find_all s).takeWhile ok ∧
    (run.completed = true ↔ ∀ c ∈ find_all s, ok c = true) := by
  rcases hf : fetch_web3_news resp with e | news
  · rw [send_news, hf] at h
    exact absurd h (by simp)
  · rw [send_news, hf] at h
    have hrun : run = delivery_loop ok ("Daily Web3 News Roundup:\n" ++ news)
        (find_all s) := by
      injection h with h2
      exact h2.symm
    rw [hrun]
    exact delivery_loop_spec ok _ (find_all s)

/-- Witness for the amended C1 at subscribers 1..5 with deliveries to 2
and 4 failing: only chat id 1 is delivered to. -/
theorem send_news_fanout_amended_witness :
    (delivery_loop (fun c => !(c == 2 || c == 4))
      ("Daily Web3 News Roundup:\n" ++ "No Web3 news available at the moment.")
      [1, 2, 3, 4, 5]).delivered = [1] := by
  have h := send_news_fanout_amended (some [])
    (fun c => !(c == 2 || c == 4)) [1, 2, 3, 4, 5]
    (delivery_loop (fun c => !(c == 2 || c == 4))
      ("Daily Web3 News Roundup:\n" ++ "No Web3 news available at the moment.")
      [1, 2, 3, 4, 5]) rfl
  exact h.2.1.trans (by decide)

/-- Lemma: when every delivery succeeds, the loop sends the fixed text to
every subscriber in order and completes. -/
theorem delivery_loop_all_ok (ok : ChatId → Bool) (text : String)
    (l : List ChatId) (h : ∀ c ∈ l, ok c = true) :
    delivery_loop ok text l =
      { messages := l.map (fun c => (c, text)), delivered := l,
        completed := true } := by
  induction l with
  | nil => rfl
  | cons c rest ih =>
      have hc : ok c = true := h c (by simp)
      rw [List.map_cons]
      simp only [delivery_loop, hc, if_true]
      rw [ih (fun x hx => h x (by simp [hx]))]

/-- C2 counterexample: when the CoinGecko request raises (the
ProviderUnavailable condition), send_project_spotlight with one subscriber
does not complete at all — the exception propagates and no run outcome
exists, so no fallback text is delivered to anybody. -/
theorem provider_unavailable_counterexample :
    (send_project_spotlight none (fun _ => true) [1]).toOption = none :=
  rfl

/-- C2 amended: a ProviderUnavailable failure of the market fetch
propagates out of send_project_spotlight and nothing is delivered to any
subscriber; the category fallback text is substituted and delivered to all
subscribers only when the provider responds successfully with an empty
project list (and every delivery succeeds). -/
theorem provider_unavailable_amended (ok : ChatId → Bool) (s : Store)
    (hok : ∀ c ∈ find_all s, ok c = true) :
    send_project_spotlight none ok s = .error FetchError.providerUnavailable ∧
    send_project_spotlight (some []) ok s = .ok
      { messages := (find_all s).map
          (fun c => (c, "Top 3 Crypto Projects:\n" ++ "No projects available at the moment.")),
        delivered := find_all s, completed := true } := by
  refine ⟨rfl, ?_⟩
  have hstep : send_project_spotlight (some []) ok s =
      Except.ok (delivery_loop ok
        ("Top 3 Crypto Projects:\n" ++ "No projects available at the moment.")
        (find_all s)) := rfl
  rw [hstep, delivery_loop_all_ok _ _ _ hok]

/-- Witness for the amended C2 at the one-subscriber store holding 7 with
an all-successful transport. -/
theorem provider_unavailable_amended_witness :
    send_project_spotlight none (fun _ => true) [7] =
      .error FetchError.providerUnavailable ∧
    send_project_spotlight (some []) (fun _ => true) [7] = .ok
      { messages := [(7, "Top 3 Crypto Projects:\n" ++ "No projects available at the moment.")],
        delivered := [7], completed := true } := by
  have h := provider_unavailable_amended (fun _ => true) [7] (by decide)
  exact ⟨h.1, h.2⟩

/-- Lemma: a fold whose step leaves the accumulator unchanged on every
element of the list returns the initial accumulator. -/
theorem foldl_fixed_of_step_id {α β : Type} (f : β → α → β) (l : List α)
    (b : β) (h : ∀ x ∈ l, ∀ acc, f acc x = acc) : l.foldl f b = b := by
  induction l generalizing b with
  | nil => rfl
  | cons x xs ih =>
      rw [List.foldl_cons, h x (by simp) b]
      exact ih b (fun y hy acc => h y (by simp [hy]) acc)

/-- C9: each content fetcher returns the category fallback string (and in
particular does not raise) when the upstream API responds successfully
with no data: an empty article list for news, a per-user response with the
data key absent or empty for every influencer for insights, and an empty
project list for the market data. -/
theorem fetch_no_data_fallback (resp : String → Option (List Tweet))
    (hresp : ∀ uid, resp uid = none ∨ resp uid = some []) :
    fetch_web3_news (some []) = .ok "No Web3 news available at the moment." ∧
    fetch_twitter_insights resp = "No insights available at the moment." ∧
    fetch_crypto_projects (some []) = .ok "No projects available at the moment." := by
  refine ⟨rfl, ?_, rfl⟩
  have hfold : influencer_ids.foldl (fun acc uid =>
      match resp uid with
      | some (t :: _) => acc ++ tweet_block t
      | _ => acc) "" = "" := by
    apply foldl_fixed_of_step_id
    intro uid _ acc
    rcases hresp uid with h | h <;> rw [h]
  rw [fetch_twitter_insights, hfold]
  rfl

/-- Witness for C9 with every influencer response lacking the data key. -/
theorem fetch_no_data_fallback_witness :
    fetch_web3_news (some []) = .ok "No Web3 news available at the moment." ∧
    fetch_twitter_insights (fun _ => none) = "No insights available at the moment." ∧
    fetch_crypto_projects (some []) = .ok "No projects available at the moment." :=
  fetch_no_data_fallback (fun _ => none) (fun _ => Or.inl rfl)

/-- Lemma: every message a delivery loop run sends carries the very same
text, the one the loop was given. -/
theorem delivery_loop_messages_text (ok : ChatId → Bool) (text : String)
    (l : List ChatId) :
    (delivery_loop ok text l).messages.map (fun m => m.2) =
      List.replicate (delivery_loop ok text l).messages.length text := by
  induction l with
  | nil => rfl
  | cons c rest ih =>
      by_cases hc : ok c = true
      · simp only [delivery_loop, hc, if_true, List.map_cons,
          List.length_cons, List.replicate_succ]
        rw [ih]
      · have hc2 : ok c = false := by simpa using hc
        simp [delivery_loop, hc2, List.replicate_succ]

/-- C10: within one send cycle the summary comes from the single fetch
performed before the fan-out loop, and every message the cycle sends
carries the identical text — the category header followed by that one
fetched summary. Stated for all three send functions. -/
theorem single_fetch_identical_text
    (aresp : Option (List Article)) (tresp : String → Option (List Tweet))
    (presp : Option (List Project)) (ok : ChatId → Bool) (s : Store)
    (nrun : SendRun) (hn : send_news aresp ok s = .ok nrun)
    (nt : String) (hnt : fetch_web3_news aresp = .ok nt)
    (prun : SendRun) (hp : send_project_spotlight presp ok s = .ok prun)
    (pt : String) (hpt : fetch_crypto_projects presp = .ok pt) :
    nrun.messages.map (fun m => m.2) =
      List.replicate nrun.messages.length ("Daily Web3 News Roundup:\n" ++ nt) ∧
    (send_insights tresp ok s).messages.map (fun m => m.2) =
      List.replicate (send_insights tresp ok s).messages.length
        ("Expert Insights:\n" ++ fetch_twitter_insights tresp) ∧
    prun.messages.map (fun m => m.2) =
      List.replicate prun.messages.length ("Top 3 Crypto Projects:\n" ++ pt) := by
  refine ⟨?_, ?_, ?_⟩
  · rw [send_news, hnt] at hn
    have hrun : nrun = delivery_loop ok ("Daily Web3 News Roundup:\n" ++ nt)
        (find_all s) := by
      injection hn with h2
      exact h2.symm
    rw [hrun]
    exact delivery_loop_messages_text ok _ (find_all s)
  · exact delivery_loop_messages_text ok _ (find_all s)
  · rw [send_project_spotlight, hpt] at hp
    have hrun : prun = delivery_loop ok ("Top 3 Crypto Projects:\n" ++ pt)
        (find_all s) := by
      injection hp with h2
      exact h2.symm
    rw [hrun]
    exact delivery_loop_messages_text ok _ (find_all s)

/-- Witness for C10 at the one-subscriber store holding 5, empty provider
payloads and an all-successful transport. -/
theorem single_fetch_identical_text_witness :
    (delivery_loop (fun _ => true)
      ("Daily Web3 News Roundup:\n" ++ "No Web3 news available at the moment.")
      [5]).messages.map (fun m => m.2) =
      List.replicate 1
        ("Daily Web3 News Roundup:\n" ++ "No Web3 news available at the moment.") ∧
    (send_insights (fun _ => none) (fun _ => true) [5]).messages.map (fun m => m.2) =
      List.replicate 1
        ("Expert Insights:\n" ++ "No insights available at the moment.") ∧
    (delivery_loop (fun _ => true)
      ("Top 3 Crypto Projects:\n" ++ "No projects available at the moment.")
      [5]).messages.map (fun m => m.2) =
      List.replicate 1
        ("Top 3 Crypto Projects:\n" ++ "No projects available at the moment.") := by
  have h := single_fetch_identical_text (some []) (fun _ => none) (some [])
    (fun _ => true) [5]
    (delivery_loop (fun _ => true)
      ("Daily Web3 News Roundup:\n" ++ "No Web3 news available at the moment.") [5])
    rfl "No Web3 news available at the moment." rfl
    (delivery_loop (fun _ => true)
      ("Top 3 Crypto Projects:\n" ++ "No projects available at the moment.") [5])
    rfl "No projects available at the moment." rfl
  exact ⟨h.1, h.2.1, h.2.2⟩

/-- C8: manual and scheduled news sends diverge. The manual news command
awaits send_news, so with one subscriber 42 and a successful empty news
response the message is composed and delivered; the scheduled 08:00 job
calls send_news without awaiting the coroutine, so its body never runs
and the job delivers nothing. -/
theorem manual_scheduled_news_divergence :
    test_send_news (some []) (fun _ => true) [42] = .ok
      { messages := [(42, "Daily Web3 News Roundup:\n" ++ "No Web3 news available at the moment.")],
        delivered := [42], completed := true } ∧
    scheduled_news_job_deliveries = [] :=
  ⟨rfl, rfl⟩

/-- Lemma: ticks strictly before the next due instant never fire the job
and leave it unchanged. -/
theorem run_ticks_no_fire (j : Job) (ts : List Nat)
    (h : ∀ t ∈ ts, t < j.nextRun) : run_ticks j ts = (j, 0) := by
  induction ts with
  | nil => rfl
  | cons t ts ih =>
      have h1 : ¬ (j.nextRun ≤ t) := by
        have := h t (by simp)
        omega
      simp only [run_ticks, run_pending, h1, if_false]
      rw [ih (fun u hu => h u (by simp [hu]))]
      simp

/-- C7: for the entry due daily at 08:00 (minute 480), any nonempty burst
of polling ticks falling between 08:00 and 08:01 of day d fires the job
exactly once, and a tick at 08:00 of day d + 1 fires it again. -/
theorem scheduler_daily_fire (d : Nat) (ts : List Nat) (hne : ts ≠ [])
    (hin : ∀ t ∈ ts, d * 1440 + 480 ≤ t ∧ t ≤ d * 1440 + 481) :
    (run_ticks { atMin := 480, nextRun := d * 1440 + 480 } ts).2 = 1 ∧
    (run_pending (run_ticks { atMin := 480, nextRun := d * 1440 + 480 } ts).1
      ((d + 1) * 1440 + 480)).2 = true := by
  cases ts with
  | nil => exact absurd rfl hne
  | cons t ts =>
      have ht := hin t (by simp)
      have hle : d * 1440 + 480 ≤ t := ht.1
      have hdiv : t / 1440 = d := by omega
      have hfire : run_pending { atMin := 480, nextRun := d * 1440 + 480 } t =
          ({ atMin := 480, nextRun := (d + 1) * 1440 + 480 }, true) := by
        simp only [run_pending]
        rw [if_pos hle, hdiv]
      have hrest : run_ticks { atMin := 480, nextRun := (d + 1) * 1440 + 480 } ts =
          ({ atMin := 480, nextRun := (d + 1) * 1440 + 480 }, 0) := by
        apply run_ticks_no_fire
        intro u hu
        have := (hin u (by simp [hu])).2
        simp only
        omega
      constructor
      · simp [run_ticks, hfire, hrest]
      · have hjob : (run_ticks { atMin := 480, nextRun := d * 1440 + 480 }
            (t :: ts)).1 = { atMin := 480, nextRun := (d + 1) * 1440 + 480 } := by
          simp [run_ticks, hfire, hrest]
        rw [hjob]
        simp [run_pending]

/-- Witness for C7 on day 0 with ticks at minutes 480, 480 and 481. -/
theorem scheduler_daily_fire_witness :
    (run_ticks { atMin := 480, nextRun := 0 * 1440 + 480 } [480, 480, 481]).2 = 1 ∧
    (run_pending
      (run_ticks { atMin := 480, nextRun := 0 * 1440 + 480 } [480, 480, 481]).1
      ((0 + 1) * 1440 + 480)).2 = true :=
  scheduler_daily_fire 0 [480, 480, 481] (by decide) (by decide)

end NewsFeedBot
